import Mathlib

/-!
Verification of the chrony NTS implementation (nts_ke.c and the NTS-NTP
extension-field module).

Bytes are modelled as natural numbers, byte strings as `List Nat`, C ints
holding the protocol error codes as `Int` (so that the negative sentinel
values `ERROR_NONE = -1` and `ERROR_BAD_RESPONSE = -2` keep their source
values).  The AES-SIV-CMAC primitive (nettle / siv_cmac.h) is external to
the repository and is modelled symbolically as a perfect AEAD.
-/

namespace ChronyNts

/-! ## AEAD adapter (AES-SIV-CMAC)

Modelled from the spec: the AES-SIV-CMAC-256 primitive itself
(`siv_cmac_aes128_encrypt_message` / `siv_cmac_aes128_decrypt_message`
from nettle or the bundled siv_cmac.h) is not part of the repository
sources.  Section 4.C of the specification describes it as an AEAD whose
ciphertext is `|plaintext| + 16` bytes and whose decryption succeeds
exactly on a ciphertext produced with the same key, nonce and associated
data.  We model a ciphertext as a symbolic record of those inputs. -/

/-- A symbolic AES-SIV-CMAC ciphertext: it remembers the key, the nonce, the
associated data and the plaintext that produced it, which makes decryption
succeed exactly when all of them match (a perfect AEAD). -/
structure SivCiphertext where
  key : Nat
  nonce : List Nat
  ad : List Nat
  pt : List Nat
deriving DecidableEq

/-- Modelled from the spec: `siv_cmac_aes128_encrypt_message` (external
primitive), producing the symbolic ciphertext. -/
def siv_cmac_aes128_encrypt_message (key : Nat) (nonce ad pt : List Nat) : SivCiphertext :=
  ⟨key, nonce, ad, pt⟩

/-- Modelled from the spec: `siv_cmac_aes128_decrypt_message` (external
primitive).  `ptLen` is the expected plaintext length (ciphertext length
minus the 16-byte SIV tag); decryption returns the plaintext exactly when
key, nonce, associated data and length all match. -/
def siv_cmac_aes128_decrypt_message (key : Nat) (nonce ad : List Nat) (ptLen : Nat)
    (ct : SivCiphertext) : Option (List Nat) :=
  if ct.key = key ∧ ct.nonce = nonce ∧ ct.ad = ad ∧ ct.pt.length = ptLen then some ct.pt
  else none

/-- Length in bytes of a SIV ciphertext: plaintext length plus the 16-byte
SIV tag (`SIV_DIGEST_SIZE`). -/
def sivCiphertextLength (ct : SivCiphertext) : Nat := ct.pt.length + 16

/-! ## Server key ring (nts_ke.c)

`MAX_SERVER_KEYS = 1 << KEY_ID_INDEX_BITS = 4`.  A `ServerKey` holds the
random key id and the SIV key material (the 32 random bytes are modelled
as a single `Nat`). -/

/-- One slot of the server key ring (`ServerKey` in nts_ke.c); `siv` stands
for the SIV key material installed with `siv_cmac_aes128_set_key`. -/
structure ServerKey where
  id : Nat
  siv : Nat
deriving DecidableEq

/-- The process-wide server key state of nts_ke.c: the ring `server_keys`
of `MAX_SERVER_KEYS = 4` slots and the index `current_server_key`. -/
structure ServerKeyRing where
  keys : Fin 4 → ServerKey
  current : Fin 4

/-- `generate_server_key` from nts_ke.c: advance `current_server_key` mod 4,
install fresh SIV key material (`randKey` models the 32 random bytes), and
install a fresh id: a random 32-bit value (`randId`) with its low
`KEY_ID_INDEX_BITS = 2` bits cleared (`id &= -1U << 2`, i.e. `&&&
0xfffffffc`) and the slot index ORed in. -/
def generate_server_key (st : ServerKeyRing) (randKey randId : Nat) : ServerKeyRing :=
  let cur : Fin 4 := st.current + 1
  let id : Nat := ((randId % 4294967296) &&& 4294967292) ||| cur.val
  { keys := fun i => if i = cur then { id := id, siv := randKey } else st.keys i,
    current := cur }

/-! ## Cookie seal / open (nts_ke.c) -/

/-- `NKE_Cookie` as interpreted by the server (`ServerCookie` in nts_ke.c):
`length` is the byte length recorded in the `NKE_Cookie` wrapper, and the
payload is `{ key_id : u32, nonce : bytes[16], ciphertext : bytes[64+16] }`. -/
structure NKE_Cookie where
  length : Nat
  key_id : Nat
  nonce : List Nat
  ciphertext : SivCiphertext
deriving DecidableEq

/-- `sizeof (ServerCookie)` = 4 (key id) + 16 (nonce) + 80 (ciphertext). -/
def serverCookieSize : Nat := 100

/-- `NKE_GenerateCookie` from nts_ke.c: seal the 64-byte concatenation
`C2S || S2C` under the current server key with a fresh nonce (passed here
as the `nonce` argument, standing for `UTI_GetRandomBytes`) and empty
associated data. -/
def NKE_GenerateCookie (st : ServerKeyRing) (c2s s2c nonce : List Nat) : NKE_Cookie :=
  let key := st.keys st.current
  { length := serverCookieSize,
    key_id := key.id,
    nonce := nonce,
    ciphertext := siv_cmac_aes128_encrypt_message key.siv nonce [] (c2s ++ s2c) }

/-- `NKE_DecodeCookie` from nts_ke.c: check the canonical length, look the
key up in slot `key_id % MAX_SERVER_KEYS`, reject if the stored id differs,
SIV-decrypt the 80-byte ciphertext into 64 plaintext bytes and split them
into (C2S, S2C). -/
def NKE_DecodeCookie (st : ServerKeyRing) (ck : NKE_Cookie) :
    Option (List Nat × List Nat) :=
  if ck.length ≠ serverCookieSize then none
  else
    let key := st.keys ⟨ck.key_id % 4, Nat.mod_lt _ (by norm_num)⟩
    if ck.key_id ≠ key.id then none
    else
      match siv_cmac_aes128_decrypt_message key.siv ck.nonce [] 64 ck.ciphertext with
      | none => none
      | some pt => some (pt.take 32, pt.drop 32)

/-- A concrete server key ring whose slot `i` holds a key with id `i`,
satisfying the ring-lookup invariant. -/
def ringEx : ServerKeyRing :=
  { keys := fun i => { id := i.val, siv := 7 }, current := 0 }

/-- A cookie whose key id does not match the id stored in ring slot
`key_id % 4` of `ringEx` (5 % 4 = 1, but slot 1 holds id 1). -/
def staleCookieEx : NKE_Cookie :=
  { length := 100, key_id := 5, nonce := [], ciphertext := ⟨0, [], [], []⟩ }

/-! ## NTS-KE record codec (nts_ke.c)

An `NKE_Message` holds `length` bytes of data plus the `eof` flag; the
`parsed` cursor of the C struct is represented here by the suffix of the
byte list still to be examined, and `length` by `data.length`.  Record
wire form: 2-byte big-endian `type | critical << 15`, 2-byte big-endian
body length, body. -/

/-- The NTS-KE message buffer (`struct NKE_Message`): the received bytes
and the eof flag set when the peer closed the TLS stream. -/
structure NKE_Message where
  data : List Nat
  eof : Bool
deriving DecidableEq

/-- The result type of `check_message_format` (`NtsKeMsgFormat`). -/
inductive NtsKeMsgFormat where
  | MSG_INCOMPLETE
  | MSG_ERROR
  | MSG_OK
deriving DecidableEq

/-- The header fields `get_record` reports for one record: the critical
flag (bit 15 of the type word), the 15-bit type, and the body length. -/
structure ParsedHeader where
  critical : Bool
  rtype : Nat
  blen : Nat
deriving DecidableEq

/-- The `get_record` loop of `check_message_format`: starting from the
unparsed suffix of the buffer, greedily parse records (4-byte header plus
declared body), returning the number of bytes consumed and the header of
the last record parsed.  `get_record` fails when fewer than 4 bytes remain
or the declared body exceeds the remaining bytes. -/
def recordLoop : List Nat → Option ParsedHeader → Nat × Option ParsedHeader
  | b0 :: _b1 :: b2 :: b3 :: rest, last =>
    let blen := b2 * 256 + b3
    if blen ≤ rest.length then
      let hd : ParsedHeader := ⟨128 ≤ b0, (b0 % 128) * 256 + _b1, blen⟩
      let r := recordLoop (rest.drop blen) (some hd)
      (4 + blen + r.1, r.2)
    else (0, last)
  | _, last => (0, last)
  termination_by bytes _ => bytes.length
  decreasing_by simp_wf; omega

/-- `check_message_format` from nts_ke.c: iterate `get_record` to
completion; if the buffer is empty or bytes remain unconsumed, report
`MSG_ERROR` when eof is set and `MSG_INCOMPLETE` otherwise; else require
the last record to be a critical End-of-Message with empty body. -/
def check_message_format (m : NKE_Message) : NtsKeMsgFormat :=
  let r := recordLoop m.data none
  if m.data.length = 0 ∨ r.1 < m.data.length then
    if m.eof then .MSG_ERROR else .MSG_INCOMPLETE
  else
    match r.2 with
    | some hd =>
      if hd.critical ∧ hd.rtype = 0 ∧ hd.blen = 0 then .MSG_OK else .MSG_ERROR
    | none => .MSG_ERROR

/-- The 4 header bytes `add_record` writes: `htons(!!critical * 0x8000 |
type)` followed by `htons(body_length)` (big-endian, truncated to 16
bits as by the uint16 fields of `struct RecordHeader`). -/
def recordHeaderBytes (critical : Bool) (rtype blen : Nat) : List Nat :=
  let t := ((if critical then 32768 else 0) ||| rtype) % 65536
  [t / 256, t % 256, blen / 256 % 256, blen % 256]

/-- `add_record` from nts_ke.c: fail when the body exceeds 65535 bytes or
the message would exceed the 16384-byte buffer; otherwise append header
and body. -/
def add_record (msg : List Nat) (critical : Bool) (rtype : Nat) (body : List Nat) :
    Option (List Nat) :=
  if body.length > 65535 ∨ msg.length + 4 + body.length > 16384 then none
  else some (msg ++ recordHeaderBytes critical rtype body.length ++ body)

/-- One NTS-KE record as handed to `add_record` / yielded by `get_record`. -/
structure KERecord where
  critical : Bool
  rtype : Nat
  body : List Nat
deriving DecidableEq

/-- Encode a sequence of records through consecutive `add_record` calls,
failing as soon as one call fails. -/
def addRecords (msg : List Nat) : List KERecord → Option (List Nat)
  | [] => some msg
  | r :: rs =>
    match add_record msg r.critical r.rtype r.body with
    | none => none
    | some m => addRecords m rs

/-- The critical End-of-Message record with empty body. -/
def eomRecord : KERecord := ⟨true, 0, []⟩

/-- The byte encoding `add_record` appends for one record. -/
def encodeRecord (r : KERecord) : List Nat :=
  recordHeaderBytes r.critical r.rtype r.body.length ++ r.body

/-- The byte encoding of a record sequence. -/
def encodeRecords : List KERecord → List Nat
  | [] => []
  | r :: rs => encodeRecord r ++ encodeRecords rs

/-- The header `get_record` reports when it parses the encoding of `r`
(byte 0 of the type word decides the critical flag, the remaining 15 bits
the type). -/
def parsedHeaderOf (r : KERecord) : ParsedHeader :=
  let t := ((if r.critical then 32768 else 0) ||| r.rtype) % 65536
  ⟨128 ≤ t / 256, (t / 256 % 128) * 256 + t % 256, r.body.length⟩

/-- Greedy record parse of a message buffer, keeping the bodies: the same
iteration as `recordLoop` but yielding the records themselves, as consumed
by the `get_record` loops of `process_request` and `process_response`
(each of which copies at most its buffer size of body bytes; the
truncation is applied at use sites). -/
def parseRecords : List Nat → List KERecord
  | b0 :: _b1 :: b2 :: b3 :: rest =>
    let blen := b2 * 256 + b3
    if blen ≤ rest.length then
      ⟨128 ≤ b0, (b0 % 128) * 256 + _b1, rest.take blen⟩ :: parseRecords (rest.drop blen)
    else []
  | _ => []
  termination_by bytes => bytes.length
  decreasing_by simp_wf; omega

/-! ## NTS-KE request and response processing (nts_ke.c)

Protocol constants from nts_ke.c. -/

/-- Record type `RECORD_END_OF_MESSAGE`. -/
def RECORD_END_OF_MESSAGE : Nat := 0
/-- Record type `RECORD_NEXT_PROTOCOL`. -/
def RECORD_NEXT_PROTOCOL : Nat := 1
/-- Record type `RECORD_ERROR`. -/
def RECORD_ERROR : Nat := 2
/-- Record type `RECORD_WARNING`. -/
def RECORD_WARNING : Nat := 3
/-- Record type `RECORD_AEAD_ALGORITHM`. -/
def RECORD_AEAD_ALGORITHM : Nat := 4
/-- Record type `RECORD_COOKIE`. -/
def RECORD_COOKIE : Nat := 5
/-- Record type `RECORD_NTPV4_SERVER_NEGOTIATION`. -/
def RECORD_NTPV4_SERVER_NEGOTIATION : Nat := 6
/-- Record type `RECORD_NTPV4_PORT_NEGOTIATION`. -/
def RECORD_NTPV4_PORT_NEGOTIATION : Nat := 7

/-- `ERROR_BAD_RESPONSE` (client-side sentinel, never sent). -/
def ERROR_BAD_RESPONSE : Int := -2
/-- `ERROR_NONE`. -/
def ERROR_NONE : Int := -1
/-- `ERROR_UNRECOGNIZED_CRITICAL_RECORD` (protocol error code 0). -/
def ERROR_UNRECOGNIZED_CRITICAL_RECORD : Int := 0
/-- `ERROR_BAD_REQUEST` (protocol error code 1). -/
def ERROR_BAD_REQUEST : Int := 1

/-- `NEXT_PROTOCOL_NONE`. -/
def NEXT_PROTOCOL_NONE : Int := -1
/-- `NEXT_PROTOCOL_NTPV4`. -/
def NEXT_PROTOCOL_NTPV4 : Int := 0
/-- `AEAD_NONE`. -/
def AEAD_NONE : Int := -1
/-- `AEAD_AES_SIV_CMAC_256`. -/
def AEAD_AES_SIV_CMAC_256 : Int := 15

/-- `MAX_RECORD_BODY_LENGTH` (size of the `data` buffer of
`process_request`, in bytes). -/
def MAX_RECORD_BODY_LENGTH : Nat := 256

/-- Modelled from the spec: `NKE_MAX_COOKIE_LENGTH` is declared in
nts_ke.h, which is not among the repository sources; the spec bounds a
cookie by "length ≤ ~ 256" and process_response's record buffer has
exactly this size, matching `MAX_RECORD_BODY_LENGTH`. -/
def NKE_MAX_COOKIE_LENGTH : Nat := 256

/-- Read the big-endian 16-bit values stored in a byte buffer
(`ntohs(data[i])` over the copied record body). -/
def decodeU16s : List Nat → List Nat
  | a :: b :: rest => (a * 256 + b) :: decodeU16s rest
  | _ => []

/-- `ntohs(data[0])`: the first big-endian 16-bit value of a body. -/
def firstU16 (body : List Nat) : Nat :=
  256 * body.headD 0 + body.tail.headD 0

/-- The local state of the `process_request` loop. -/
structure ReqState where
  next_protocol : Int
  aead_algorithm : Int
  error : Int
  has_next_protocol : Bool
deriving DecidableEq

/-- Initial `process_request` state. -/
def initReqState : ReqState :=
  ⟨NEXT_PROTOCOL_NONE, AEAD_NONE, ERROR_NONE, false⟩

/-- One iteration of the `process_request` switch in nts_ke.c, for the
record `r` (bodies are scanned through the 256-byte copy buffer, hence the
`take MAX_RECORD_BODY_LENGTH`). -/
def process_request_step (st : ReqState) (r : KERecord) : ReqState :=
  if r.rtype = RECORD_NEXT_PROTOCOL then
    if ¬r.critical ∨ r.body.length < 2 ∨ r.body.length % 2 ≠ 0 then
      { st with error := ERROR_BAD_REQUEST }
    else
      { st with
        next_protocol :=
          if (decodeU16s (r.body.take MAX_RECORD_BODY_LENGTH)).contains 0 then
            NEXT_PROTOCOL_NTPV4
          else st.next_protocol,
        has_next_protocol := true }
  else if r.rtype = RECORD_AEAD_ALGORITHM then
    if r.body.length < 2 ∨ r.body.length % 2 ≠ 0 then
      { st with error := ERROR_BAD_REQUEST }
    else
      { st with
        aead_algorithm :=
          if (decodeU16s (r.body.take MAX_RECORD_BODY_LENGTH)).contains 15 then
            AEAD_AES_SIV_CMAC_256
          else st.aead_algorithm }
  else if r.rtype = RECORD_ERROR ∨ r.rtype = RECORD_WARNING ∨ r.rtype = RECORD_COOKIE then
    { st with error := ERROR_BAD_REQUEST }
  else if r.rtype = RECORD_END_OF_MESSAGE then st
  else if r.critical then { st with error := ERROR_UNRECOGNIZED_CRITICAL_RECORD }
  else st

/-- The `while (error == ERROR_NONE)` loop of `process_request`: records
are consumed in order; the loop stops once `error` leaves `ERROR_NONE`. -/
def process_request_loop : ReqState → List KERecord → ReqState
  | st, [] => st
  | st, r :: rs =>
    if st.error ≠ ERROR_NONE then st
    else process_request_loop (process_request_step st r) rs

/-- `process_request` (loop plus the final missing-Next-Protocol check) on
an already-parsed record list. -/
def process_request_records (rs : List KERecord) : ReqState :=
  let st := process_request_loop initReqState rs
  if st.has_next_protocol then st else { st with error := ERROR_BAD_REQUEST }

/-- `process_request` from nts_ke.c applied to the message bytes. -/
def process_request (msg : List Nat) : ReqState :=
  process_request_records (parseRecords msg)

/-- The error value `process_request_step` produces when it runs on a
record from an error-free state (`ERROR_NONE` when the record is benign). -/
def request_record_error (r : KERecord) : Int :=
  if r.rtype = RECORD_NEXT_PROTOCOL then
    if ¬r.critical ∨ r.body.length < 2 ∨ r.body.length % 2 ≠ 0 then ERROR_BAD_REQUEST
    else ERROR_NONE
  else if r.rtype = RECORD_AEAD_ALGORITHM then
    if r.body.length < 2 ∨ r.body.length % 2 ≠ 0 then ERROR_BAD_REQUEST else ERROR_NONE
  else if r.rtype = RECORD_ERROR ∨ r.rtype = RECORD_WARNING ∨ r.rtype = RECORD_COOKIE then
    ERROR_BAD_REQUEST
  else if r.rtype = RECORD_END_OF_MESSAGE then ERROR_NONE
  else if r.critical then ERROR_UNRECOGNIZED_CRITICAL_RECORD
  else ERROR_NONE

/-- A well-formed Next-Protocol record: the only kind of record that sets
`has_next_protocol`. -/
def wfNextProtocol (r : KERecord) : Prop :=
  r.rtype = RECORD_NEXT_PROTOCOL ∧ r.critical = true ∧ 2 ≤ r.body.length
    ∧ r.body.length % 2 = 0

instance (r : KERecord) : Decidable (wfNextProtocol r) := by
  unfold wfNextProtocol; infer_instance

/-- The local state of the `process_response` loop (client side). -/
structure RespState where
  next_protocol : Int
  aead_algorithm : Int
  error : Int
  cookies : List (List Nat)
  addr : Option Nat
  port : Option Nat
deriving DecidableEq

/-- Initial `process_response` state. -/
def initRespState : RespState :=
  ⟨NEXT_PROTOCOL_NONE, AEAD_NONE, ERROR_NONE, [], none, none⟩

/-- One iteration of the `process_response` switch in nts_ke.c.
`stringToIP` abstracts `UTI_StringToIP` (util.h, external to the
repository): NTPv4-Server bodies that parse to an address; `maxCookies`
is the caller's cookie array capacity. -/
def process_response_step (stringToIP : List Nat → Option Nat) (maxCookies : Nat)
    (st : RespState) (r : KERecord) : RespState :=
  if r.rtype = RECORD_NEXT_PROTOCOL then
    if ¬r.critical ∨ r.body.length ≠ 2 ∨ firstU16 r.body ≠ 0 then
      { st with error := ERROR_BAD_RESPONSE }
    else { st with next_protocol := NEXT_PROTOCOL_NTPV4 }
  else if r.rtype = RECORD_AEAD_ALGORITHM then
    { st with
      error := if r.body.length ≠ 2 ∨ firstU16 r.body ≠ 15 then ERROR_BAD_RESPONSE
        else st.error,
      aead_algorithm := AEAD_AES_SIV_CMAC_256 }
  else if r.rtype = RECORD_ERROR ∨ r.rtype = RECORD_WARNING then
    { st with error := ERROR_BAD_RESPONSE }
  else if r.rtype = RECORD_COOKIE then
    if r.body.length ≤ NKE_MAX_COOKIE_LENGTH ∧ st.cookies.length < maxCookies then
      { st with cookies := st.cookies ++ [r.body] }
    else st
  else if r.rtype = RECORD_END_OF_MESSAGE then st
  else if r.rtype = RECORD_NTPV4_SERVER_NEGOTIATION then
    if r.body.length < 2 then { st with error := ERROR_BAD_RESPONSE }
    else if r.body.length ≥ MAX_RECORD_BODY_LENGTH + 1 then
      { st with error := ERROR_BAD_RESPONSE }
    else
      match stringToIP (r.body.take NKE_MAX_COOKIE_LENGTH) with
      | none => { st with error := ERROR_BAD_RESPONSE }
      | some a => { st with addr := some a }
  else if r.rtype = RECORD_NTPV4_PORT_NEGOTIATION then
    if r.body.length ≠ 2 then { st with error := ERROR_BAD_RESPONSE }
    else { st with port := some (firstU16 r.body) }
  else if r.critical then { st with error := ERROR_BAD_REQUEST }
  else st

/-- The `while (error == ERROR_NONE)` loop of `process_response`. -/
def process_response_loop (stringToIP : List Nat → Option Nat) (maxCookies : Nat) :
    RespState → List KERecord → RespState
  | st, [] => st
  | st, r :: rs =>
    if st.error ≠ ERROR_NONE then st
    else process_response_loop stringToIP maxCookies
      (process_response_step stringToIP maxCookies st r) rs

/-- `process_response` from nts_ke.c on the message bytes: run the loop,
then return the number of stored cookies — zero unless NTPv4 and
AES-SIV-CMAC-256 were accepted and no error occurred — together with the
final loop state. -/
def process_response (stringToIP : List Nat → Option Nat) (maxCookies : Nat)
    (msg : List Nat) : Nat × RespState :=
  let st := process_response_loop stringToIP maxCookies initRespState (parseRecords msg)
  (if st.next_protocol ≠ NEXT_PROTOCOL_NTPV4 ∨ st.aead_algorithm ≠ AEAD_AES_SIV_CMAC_256
      ∨ st.error ≠ ERROR_NONE then 0
   else st.cookies.length, st)

/-- A well-formed critical Next-Protocol record offering NTPv4. -/
def npRecordEx : KERecord := ⟨true, 1, [0, 0]⟩

/-- A critical record of unknown type 100. -/
def unknownCriticalRecordEx : KERecord := ⟨true, 100, []⟩

/-- A Cookie record (disallowed in requests). -/
def cookieRecordEx : KERecord := ⟨false, 5, [9]⟩

/-- The encoding of `[npRecordEx, unknownCriticalRecordEx, cookieRecordEx,
eomRecord]`: a request that contains a Cookie record but where an unknown
critical record comes first. -/
def requestMsgEx : List Nat :=
  [128, 1, 0, 2, 0, 0, 128, 100, 0, 0, 0, 5, 0, 1, 9, 128, 0, 0, 0]

/-- The encoding of a response carrying Next-Protocol=NTPv4,
AEAD=AES-SIV-CMAC-256, two one-byte Cookie records and End-of-Message. -/
def responseMsgEx : List Nat :=
  [128, 1, 0, 2, 0, 0, 0, 4, 0, 2, 0, 15, 0, 5, 0, 1, 1, 0, 5, 0, 1, 2, 128, 0, 0, 0]

/-! ## NTS-NTP extension fields (the NTS-for-NTP module)

`NEF_ParseField` / `NEF_AddField` and the NTP packet layout live in
ntp_ext.h, outside the repository sources; a packet is modelled as its
mode plus the ordered list of extension fields, each a type tag and body.
The extension-field type constants are modelled from the spec (RFC 8915
values); only their distinctness matters.  `MODE_CLIENT = 3` and
`MODE_SERVER = 4` are the NTPv4 association modes. -/

/-- NTP mode `MODE_CLIENT`. -/
def MODE_CLIENT : Nat := 3
/-- NTP mode `MODE_SERVER`. -/
def MODE_SERVER : Nat := 4
/-- Extension field type `NTP_EF_NTS_UNIQUE_IDENTIFIER`. -/
def NTP_EF_NTS_UNIQUE_IDENTIFIER : Nat := 260
/-- Extension field type `NTP_EF_NTS_COOKIE`. -/
def NTP_EF_NTS_COOKIE : Nat := 516
/-- Extension field type `NTP_EF_NTS_COOKIE_PLACEHOLDER`. -/
def NTP_EF_NTS_COOKIE_PLACEHOLDER : Nat := 772
/-- Extension field type `NTP_EF_NTS_AUTH_AND_EEF`. -/
def NTP_EF_NTS_AUTH_AND_EEF : Nat := 1028

/-- `get_padded_length` from the NTS-for-NTP module: round up to a
multiple of 4. -/
def get_padded_length (length : Nat) : Nat :=
  if length % 4 ≠ 0 then length + (4 - length % 4) else length

/-- The parsed `struct AuthAndEEF` lengths (the nonce and ciphertext
pointers are offsets into the body and carry no further information). -/
structure AuthAndEEF where
  nonce_length : Nat
  ciphertext_length : Nat
deriving DecidableEq

/-- `parse_auth_and_eef`: require at least 4 body bytes, read the two
big-endian u16 lengths, and require the padded nonce and ciphertext to fit
in the body. -/
def parse_auth_and_eef (body : List Nat) : Option AuthAndEEF :=
  if body.length < 4 then none
  else
    let nl := body.getD 0 0 * 256 + body.getD 1 0
    let cl := body.getD 2 0 * 256 + body.getD 3 0
    if get_padded_length nl + get_padded_length cl > body.length then none
    else some ⟨nl, cl⟩

/-- A raw NTP extension field as yielded by `NEF_ParseField`: type tag and
body bytes. -/
structure NTPExtField where
  ftype : Nat
  body : List Nat
deriving DecidableEq

/-- The parts of `NTP_PacketInfo` that `NTS_CheckRequestAuth` consults. -/
structure NTP_PacketInfo where
  mode : Nat
  ext_fields : Nat
deriving DecidableEq

/-- The extension-field loop of `NTS_CheckRequestAuth`: walk the fields,
remembering whether a cookie was already seen; a second cookie or an
unparsable Authenticator-and-EEF body returns 0 (false); completing the
loop returns 1 (true) — no AEAD verification is performed. -/
def check_request_auth_loop (cookie : Option (List Nat)) : List NTPExtField → Bool
  | [] => true
  | f :: fs =>
    if f.ftype = NTP_EF_NTS_COOKIE then
      match cookie with
      | some _ => false
      | none => check_request_auth_loop (some f.body) fs
    else if f.ftype = NTP_EF_NTS_AUTH_AND_EEF then
      match parse_auth_and_eef f.body with
      | none => false
      | some _ => check_request_auth_loop cookie fs
    else check_request_auth_loop cookie fs

/-- `NTS_CheckRequestAuth` from the NTS-for-NTP module: reject packets
with no extension fields or not in client mode, then run the field loop. -/
def NTS_CheckRequestAuth (fields : List NTPExtField) (info : NTP_PacketInfo) : Bool :=
  if info.ext_fields = 0 ∨ info.mode ≠ MODE_CLIENT then false
  else check_request_auth_loop none fields

/-- A typed NTP extension field for the client/server generation paths.
The Authenticator-and-EEF field keeps its parsed shape: the two length
words, the nonce, and the (symbolic) SIV ciphertext. -/
inductive NtpEF where
  | uniqueId (body : List Nat)
  | ntsCookie (body : List Nat)
  | cookiePlaceholder (body : List Nat)
  | authAndEEF (nonce_length ciphertext_length : Nat) (nonce : List Nat)
      (ciphertext : SivCiphertext)
deriving DecidableEq

/-- An NTP packet on the generation paths: mode plus extension fields. -/
structure NtpPacket where
  mode : Nat
  fields : List NtpEF
deriving DecidableEq

/-- A flat byte-level stand-in for the packet contents used as AEAD
associated data (`info->length` bytes of the packet): fields are listed
with their tags; the symbolic ciphertext contributes its recorded
plaintext length. -/
def encodeNtpEF : NtpEF → List Nat
  | .uniqueId b => NTP_EF_NTS_UNIQUE_IDENTIFIER :: b
  | .ntsCookie b => NTP_EF_NTS_COOKIE :: b
  | .cookiePlaceholder b => NTP_EF_NTS_COOKIE_PLACEHOLDER :: b
  | .authAndEEF nl cl nonce ct =>
    NTP_EF_NTS_AUTH_AND_EEF :: nl :: cl :: (nonce ++ List.replicate (ct.pt.length + 16) 0)

/-- The associated-data serialization of a packet. -/
def encodeNtpPacket (p : NtpPacket) : List Nat :=
  p.mode :: (p.fields.map encodeNtpEF).flatten

/-- `MAX_COOKIES` of the NTS-for-NTP module. -/
def MAX_COOKIES : Nat := 8

/-- `struct NTS_ClientInstance_Record`: the cookie ring, its fill count
and read index, the two SIV contexts (keyed with the exporter keys), and
the per-request nonce and unique id. -/
structure NTS_ClientInstance where
  cookies : List (List Nat)
  num_cookies : Nat
  cookie_index : Nat
  siv_c2s : Nat
  siv_s2c : Nat
  nonce : List Nat
  uniq_id : List Nat
deriving DecidableEq

/-- `NTS_GenerateRequestAuth` from the NTS-for-NTP module: fail (returning
0, modelled as `none`) when no cookies are left; otherwise append the
Unique-Identifier field, the cookie at `cookie_index`, `MAX_COOKIES -
num_cookies` Cookie-Placeholder fields carrying a copy of that cookie,
and the Authenticator-and-EEF field (nonce length 16, ciphertext length
`SIV_DIGEST_SIZE = 16`, empty plaintext, associated data the packet up to
this point); then decrement `num_cookies` and advance `cookie_index` mod
`MAX_COOKIES`. -/
def NTS_GenerateRequestAuth (inst : NTS_ClientInstance) (pkt : NtpPacket) :
    Option (NtpPacket × NTS_ClientInstance) :=
  if inst.num_cookies = 0 then none
  else
    let cookie := inst.cookies.getD inst.cookie_index []
    let fieldsAD := pkt.fields ++ [.uniqueId inst.uniq_id, .ntsCookie cookie]
      ++ List.replicate (MAX_COOKIES - inst.num_cookies) (.cookiePlaceholder cookie)
    let adPkt : NtpPacket := { pkt with fields := fieldsAD }
    let ct := siv_cmac_aes128_encrypt_message inst.siv_c2s inst.nonce
      (encodeNtpPacket adPkt) []
    some ({ pkt with fields := fieldsAD ++ [.authAndEEF 16 16 inst.nonce ct] },
      { inst with
        num_cookies := inst.num_cookies - 1,
        cookie_index := (inst.cookie_index + 1) % MAX_COOKIES })

/-- `add_response_cookie` from the NTS-for-NTP module: append an NTS-Cookie
extension field whose body is 100 zero bytes. -/
def add_response_cookie_body : List Nat := List.replicate 100 0

/-- What the `NTS_GenerateResponseAuth` switch appends to the response for
one request field.  The Unique-Identifier case echoes the id and then
falls through into the cookie case, so it appends a cookie as well; the
Cookie and Cookie-Placeholder cases also fall through to a single
`add_response_cookie`; everything else falls to `default`. -/
def response_fields_for (f : NtpEF) : List NtpEF :=
  match f with
  | .uniqueId b => [.uniqueId b, .ntsCookie add_response_cookie_body]
  | .ntsCookie _ => [.ntsCookie add_response_cookie_body]
  | .cookiePlaceholder _ => [.ntsCookie add_response_cookie_body]
  | .authAndEEF _ _ _ _ => []

/-- `NTS_GenerateResponseAuth` from the NTS-for-NTP module: require the
request in client mode and the response in server mode, then walk the
request fields appending response fields per `response_fields_for`. -/
def NTS_GenerateResponseAuth (req resp : NtpPacket) : Option NtpPacket :=
  if req.mode ≠ MODE_CLIENT ∨ resp.mode ≠ MODE_SERVER then none
  else some { resp with
    fields := resp.fields ++ (req.fields.map response_fields_for).flatten }

/-- Number of NTS-Cookie extension fields in a field list. -/
def countCookieFields (fs : List NtpEF) : Nat :=
  (fs.filter fun f => match f with | .ntsCookie _ => true | _ => false).length

/-- `NTS_CheckResponseAuth` from the NTS-for-NTP module, as shipped: after
rejecting packets without extension fields or not in server mode, it
returns 0 unconditionally (a stub — no unique-id comparison, no S2C
decryption, no cookie absorption). -/
def NTS_CheckResponseAuth (_inst : NTS_ClientInstance) (pkt : NtpPacket) : Nat :=
  if pkt.fields.length = 0 ∨ pkt.mode ≠ MODE_SERVER then 0
  else 0

/-- A concrete client instance holding two cookies and fresh key material,
nonce and unique id. -/
def clientInstEx : NTS_ClientInstance :=
  { cookies := [List.replicate 100 1, List.replicate 100 2],
    num_cookies := 2, cookie_index := 0, siv_c2s := 11, siv_s2c := 12,
    nonce := List.replicate 16 3, uniq_id := List.replicate 32 4 }

/-- A client instance with an empty cookie ring. -/
def clientInstEmptyEx : NTS_ClientInstance :=
  { cookies := [], num_cookies := 0, cookie_index := 0, siv_c2s := 11, siv_s2c := 12,
    nonce := List.replicate 16 3, uniq_id := List.replicate 32 4 }

/-- Low-bit arithmetic behind the key-id construction in
`generate_server_key`: clearing the low two bits with `&&& 0xfffffffc` and
ORing in a slot index below 4 makes the value congruent to that index mod 4. -/
theorem land_mask_lor_mod_four (a c : Nat) (hc : c < 4) :
    ((a &&& 4294967292) ||| c) % 4 = c := by
  have h3 : (3 : Nat) = 2 ^ 2 - 1 := by norm_num
  have hmask : 4294967292 &&& 3 = 0 := by
    rw [h3, Nat.and_pow_two_sub_one_eq_mod]
  have hlow : (a &&& 4294967292) &&& 3 = 0 := by
    rw [Nat.and_assoc, hmask, Nat.and_zero]
  calc ((a &&& 4294967292) ||| c) % 4
      = ((a &&& 4294967292) ||| c) &&& (2 ^ 2 - 1) := by
        rw [Nat.and_pow_two_sub_one_eq_mod]
    _ = 3 &&& ((a &&& 4294967292) ||| c) := by rw [← h3, Nat.and_comm]
    _ = (3 &&& (a &&& 4294967292)) ||| (3 &&& c) := Nat.and_or_distrib_left 3 _ c
    _ = 0 ||| (c &&& 3) := by rw [Nat.and_comm 3, hlow, Nat.and_comm 3]
    _ = c := by rw [Nat.zero_or, h3, Nat.and_pow_two_sub_one_eq_mod, Nat.mod_eq_of_lt hc]

/-- C1: For all 32-byte keys C2S and S2C and any nonce drawn during sealing,
opening a cookie produced by `NKE_GenerateCookie` with `NKE_DecodeCookie`
succeeds and recovers exactly the original (C2S, S2C) pair, provided the
key that sealed it is still present in the server key ring (the slot
`id % 4` still holds the sealing key). -/
theorem cookie_seal_open_roundtrip (st : ServerKeyRing) (c2s s2c nonce : List Nat)
    (hc : c2s.length = 32) (hs : s2c.length = 32)
    (hring : st.keys ⟨(st.keys st.current).id % 4, Nat.mod_lt _ (by norm_num)⟩
      = st.keys st.current) :
    NKE_DecodeCookie st (NKE_GenerateCookie st c2s s2c nonce) = some (c2s, s2c) := by
  unfold NKE_DecodeCookie NKE_GenerateCookie
  simp only [hring, siv_cmac_aes128_decrypt_message, siv_cmac_aes128_encrypt_message]
  have hlen : (c2s ++ s2c).length = 64 := by simp [hc, hs]
  simp [hlen]
  constructor
  · rw [← hc]; exact List.take_left c2s s2c
  · rw [← hc]; exact List.drop_left c2s s2c

/-- Witness for C1 at a concrete ring, keys and nonce. -/
theorem cookie_seal_open_roundtrip_witness :
    NKE_DecodeCookie ringEx
        (NKE_GenerateCookie ringEx (List.replicate 32 17) (List.replicate 32 34)
          (List.replicate 16 1))
      = some (List.replicate 32 17, List.replicate 32 34) :=
  cookie_seal_open_roundtrip ringEx _ _ _ (by simp) (by simp) rfl

/-- C5: After every rotation (`generate_server_key`), the newly installed
key id has its low 2 bits equal to the current slot index, so
`server_keys[id % 4].id = id` holds for the new key, and `NKE_DecodeCookie`
rejects (returns none, the model of 0, for) any cookie whose `key_id`
differs from the id stored in slot `key_id % 4`. -/
theorem server_key_rotation_slot_id (st : ServerKeyRing) (randKey randId : Nat)
    (ck : NKE_Cookie) :
    ((generate_server_key st randKey randId).keys
        (generate_server_key st randKey randId).current).id % 4
      = (generate_server_key st randKey randId).current.val
    ∧ (generate_server_key st randKey randId).keys
        ⟨((generate_server_key st randKey randId).keys
            (generate_server_key st randKey randId).current).id % 4,
          Nat.mod_lt _ (by norm_num)⟩
      = (generate_server_key st randKey randId).keys
          (generate_server_key st randKey randId).current
    ∧ (ck.key_id ≠ (st.keys ⟨ck.key_id % 4, Nat.mod_lt _ (by norm_num)⟩).id →
        NKE_DecodeCookie st ck = none) := by
  have hcur : (generate_server_key st randKey randId).current = st.current + 1 := rfl
  have hkey : (generate_server_key st randKey randId).keys (st.current + 1)
      = { id := ((randId % 4294967296) &&& 4294967292) ||| (st.current + 1).val,
          siv := randKey } := by
    simp [generate_server_key]
  have hid : (((randId % 4294967296) &&& 4294967292) ||| (st.current + 1).val) % 4
      = (st.current + 1).val :=
    land_mask_lor_mod_four _ _ (st.current + 1).isLt
  have h1 : ((generate_server_key st randKey randId).keys
      (generate_server_key st randKey randId).current).id % 4
      = (generate_server_key st randKey randId).current.val := by
    rw [hcur, hkey]
    exact hid
  refine ⟨h1, ?_, ?_⟩
  · congr 1
    exact Fin.ext h1
  · intro hne
    unfold NKE_DecodeCookie
    by_cases hl : ck.length ≠ serverCookieSize
    · simp [hl]
    · simp only [hl, if_false]
      simp [hne]

/-- What one `add_record` success contributes: the body fits in 16 bits
and the bytes appended are `encodeRecord`. -/
theorem addRecords_eq (rs : List KERecord) :
    ∀ msg bs, addRecords msg rs = some bs →
      bs = msg ++ encodeRecords rs ∧ ∀ r ∈ rs, r.body.length ≤ 65535 := by
  induction rs with
  | nil =>
    intro msg bs h
    simp [addRecords] at h
    simp [encodeRecords, h]
  | cons r rs ih =>
    intro msg bs h
    simp only [addRecords] at h
    cases hadd : add_record msg r.critical r.rtype r.body with
    | none => rw [hadd] at h; exact absurd h (by simp)
    | some m =>
      rw [hadd] at h
      unfold add_record at hadd
      by_cases hc : r.body.length > 65535 ∨ msg.length + 4 + r.body.length > 16384
      · rw [if_pos hc] at hadd; exact absurd hadd (by simp)
      · rw [if_neg hc] at hadd
        push_neg at hc
        injection hadd with hm
        subst hm
        obtain ⟨heq, hall⟩ := ih _ bs h
        refine ⟨?_, ?_⟩
        · rw [heq]
          simp [encodeRecords, encodeRecord, List.append_assoc]
        · intro x hx
          rcases List.mem_cons.mp hx with hx | hx
          · subst hx; exact hc.1
          · exact hall x hx

/-- Parsing the encoding of one record consumes its header and body and
records `parsedHeaderOf` as the last header, then continues on the tail. -/
theorem recordLoop_encodeRecord (r : KERecord) (tail : List Nat)
    (last : Option ParsedHeader) (h : r.body.length ≤ 65535) :
    recordLoop (encodeRecord r ++ tail) last
      = (4 + r.body.length + (recordLoop tail (some (parsedHeaderOf r))).1,
        (recordLoop tail (some (parsedHeaderOf r))).2) := by
  have hb : r.body.length / 256 % 256 * 256 + r.body.length % 256 = r.body.length := by
    omega
  have hcons : encodeRecord r ++ tail
      = (((if r.critical then 32768 else 0) ||| r.rtype) % 65536) / 256
        :: (((if r.critical then 32768 else 0) ||| r.rtype) % 65536) % 256
        :: r.body.length / 256 % 256 :: r.body.length % 256 :: (r.body ++ tail) := by
    simp [encodeRecord, recordHeaderBytes]
  rw [hcons, recordLoop]
  simp only [hb]
  rw [if_pos (by simp : r.body.length ≤ (r.body ++ tail).length)]
  rw [List.drop_left]
  rfl

/-- Parsing the encoding of a record sequence terminated by End-of-Message
consumes every byte and ends on the End-of-Message header. -/
theorem recordLoop_encodeRecords_eom (rs : List KERecord)
    (h : ∀ r ∈ rs, r.body.length ≤ 65535) (last : Option ParsedHeader) :
    recordLoop (encodeRecords (rs ++ [eomRecord])) last
      = ((encodeRecords (rs ++ [eomRecord])).length, some (parsedHeaderOf eomRecord)) := by
  induction rs generalizing last with
  | nil =>
    have : encodeRecords ([] ++ [eomRecord]) = encodeRecord eomRecord ++ [] := by
      simp [encodeRecords]
    rw [this, recordLoop_encodeRecord eomRecord [] last (by simp [eomRecord])]
    simp [recordLoop, encodeRecord, eomRecord, recordHeaderBytes]
  | cons r rs ih =>
    have hr : r.body.length ≤ 65535 := h r (by simp)
    have hrs : ∀ x ∈ rs, x.body.length ≤ 65535 := fun x hx => h x (by simp [hx])
    have : encodeRecords ((r :: rs) ++ [eomRecord])
        = encodeRecord r ++ encodeRecords (rs ++ [eomRecord]) := by
      simp [encodeRecords]
    rw [this, recordLoop_encodeRecord r _ last hr, ih hrs]
    simp [encodeRecord, recordHeaderBytes]
    omega

/-- C4 counterexample: the claim says a message containing more than one
End-of-Message record is an Error, but encoding `[EoM]` followed by the
terminating EoM — two End-of-Message records — validates as Ok, because
`check_message_format` only inspects the last record. -/
theorem validate_double_eom_ok_cx :
    addRecords [] [eomRecord, eomRecord] = some [128, 0, 0, 0, 128, 0, 0, 0]
    ∧ check_message_format ⟨[128, 0, 0, 0, 128, 0, 0, 0], false⟩ = .MSG_OK
    ∧ check_message_format ⟨[128, 0, 0, 0, 128, 0, 0, 0], false⟩ ≠ .MSG_ERROR := by
  refine ⟨?_, ?_, ?_⟩
  · simp [addRecords, add_record, recordHeaderBytes, eomRecord]
  · simp [check_message_format, recordLoop]
  · simp [check_message_format, recordLoop]

/-- C4 (amended): for every vector of records whose encoding via
`add_record` succeeds (each body at most 65535 bytes and the total within
the message buffer), terminated by one critical End-of-Message, validation
returns Ok — whether or not the vector itself contains End-of-Message
records, since only the last record is inspected. -/
theorem validate_encode_ok (rs : List KERecord) (bs : List Nat) (e : Bool)
    (h : addRecords [] (rs ++ [eomRecord]) = some bs) :
    check_message_format ⟨bs, e⟩ = .MSG_OK := by
  obtain ⟨heq, hall⟩ := addRecords_eq (rs ++ [eomRecord]) [] bs h
  have hall' : ∀ r ∈ rs, r.body.length ≤ 65535 := fun r hr => hall r (by simp [hr])
  rw [List.nil_append] at heq
  subst heq
  have hloop := recordLoop_encodeRecords_eom rs hall' none
  have hlen : (encodeRecords (rs ++ [eomRecord])).length ≠ 0 := by
    induction rs with
    | nil => simp [encodeRecords, encodeRecord, recordHeaderBytes, eomRecord]
    | cons r rs ih => simp [encodeRecords, encodeRecord, recordHeaderBytes]
  have hne : ¬((encodeRecords (rs ++ [eomRecord])).length = 0
      ∨ ((encodeRecords (rs ++ [eomRecord])).length,
          some (parsedHeaderOf eomRecord)).1 < (encodeRecords (rs ++ [eomRecord])).length) := by
    rintro (h0 | hlt)
    · exact hlen h0
    · simp at hlt
  have hhd : parsedHeaderOf eomRecord = ⟨true, 0, 0⟩ := by
    simp [parsedHeaderOf, eomRecord]
  unfold check_message_format
  rw [hloop, if_neg hne, hhd]
  simp

/-- Witness for C4: one Cookie record plus the End-of-Message terminator
encodes successfully and validates Ok. -/
theorem validate_encode_ok_witness :
    check_message_format ⟨[0, 5, 0, 2, 9, 9, 128, 0, 0, 0], true⟩ = .MSG_OK :=
  validate_encode_ok [⟨false, 5, [9, 9]⟩] _ true
    (by simp [addRecords, add_record, recordHeaderBytes, eomRecord])

/-- From an error-free state, the error after one `process_request` switch
iteration depends only on the record. -/
theorem process_request_step_error (st : ReqState) (r : KERecord)
    (h : st.error = ERROR_NONE) :
    (process_request_step st r).error = request_record_error r := by
  unfold process_request_step request_record_error
  split_ifs <;> simp_all

/-- One `process_request` iteration never clears `has_next_protocol`. -/
theorem process_request_step_keeps_np (st : ReqState) (r : KERecord)
    (h : st.has_next_protocol = true) :
    (process_request_step st r).has_next_protocol = true := by
  unfold process_request_step
  split_ifs <;> simp_all

/-- Only a well-formed critical Next-Protocol record sets
`has_next_protocol`. -/
theorem process_request_step_np_false (st : ReqState) (r : KERecord)
    (h : st.has_next_protocol = false) (hr : ¬wfNextProtocol r) :
    (process_request_step st r).has_next_protocol = false := by
  unfold process_request_step
  unfold wfNextProtocol at hr
  split_ifs with h1 h2 <;> simp_all

/-- A well-formed critical Next-Protocol record sets `has_next_protocol`. -/
theorem process_request_step_sets_np (st : ReqState) (r : KERecord)
    (hr : wfNextProtocol r) :
    (process_request_step st r).has_next_protocol = true := by
  obtain ⟨h1, h2, h3, h4⟩ := hr
  unfold process_request_step
  rw [if_pos h1, if_neg (by simp [h2]; omega)]

/-- The `process_request` loop ignores the rest once the state carries an
error (the `while` condition fails). -/
theorem process_request_loop_stuck (rs : List KERecord) (st : ReqState)
    (h : st.error ≠ ERROR_NONE) :
    process_request_loop st rs = st := by
  cases rs with
  | nil => rfl
  | cons r rs => unfold process_request_loop; rw [if_pos h]

/-- Unfolding equation of the `process_request` loop. -/
theorem process_request_loop_cons (st : ReqState) (r : KERecord) (rs : List KERecord) :
    process_request_loop st (r :: rs)
      = if st.error ≠ ERROR_NONE then st
        else process_request_loop (process_request_step st r) rs := rfl

/-- The `process_request` loop splits over list append. -/
theorem process_request_loop_append (pre rest : List KERecord) :
    ∀ st, process_request_loop st (pre ++ rest)
      = process_request_loop (process_request_loop st pre) rest := by
  induction pre with
  | nil => intro st; rfl
  | cons r pre ih =>
    intro st
    rw [List.cons_append, process_request_loop_cons, process_request_loop_cons]
    by_cases h : st.error ≠ ERROR_NONE
    · rw [if_pos h, if_pos h, process_request_loop_stuck rest st h]
    · rw [if_neg h, if_neg h, ih]

/-- Running the loop over benign records (records whose switch case does
not set an error) keeps the state error-free. -/
theorem process_request_loop_benign (pre : List KERecord) :
    ∀ st, st.error = ERROR_NONE → (∀ x ∈ pre, request_record_error x = ERROR_NONE) →
      (process_request_loop st pre).error = ERROR_NONE := by
  induction pre with
  | nil => intro st h _; exact h
  | cons r pre ih =>
    intro st h hall
    unfold process_request_loop
    rw [if_neg (by simp [h])]
    exact ih _ (by rw [process_request_step_error st r h]; exact hall r (by simp))
      (fun x hx => hall x (by simp [hx]))

/-- The loop preserves `has_next_protocol` once set. -/
theorem process_request_loop_keeps_np (rs : List KERecord) :
    ∀ st, st.has_next_protocol = true →
      (process_request_loop st rs).has_next_protocol = true := by
  induction rs with
  | nil => intro st h; exact h
  | cons r rs ih =>
    intro st h
    unfold process_request_loop
    by_cases he : st.error ≠ ERROR_NONE
    · rw [if_pos he]; exact h
    · rw [if_neg he]
      exact ih _ (process_request_step_keeps_np st r h)

/-- Running the loop over benign records containing a well-formed
Next-Protocol record sets `has_next_protocol`. -/
theorem process_request_loop_np (pre : List KERecord) :
    ∀ st, st.error = ERROR_NONE → (∀ x ∈ pre, request_record_error x = ERROR_NONE) →
      (∃ x ∈ pre, wfNextProtocol x) →
      (process_request_loop st pre).has_next_protocol = true := by
  induction pre with
  | nil => intro st _ _ hex; simp at hex
  | cons r pre ih =>
    intro st h hall hex
    unfold process_request_loop
    rw [if_neg (by simp [h])]
    by_cases hwf : wfNextProtocol r
    · exact process_request_loop_keeps_np pre _ (process_request_step_sets_np st r hwf)
    · obtain ⟨x, hx, hxwf⟩ := hex
      rcases List.mem_cons.mp hx with rfl | hx
      · exact absurd hxwf hwf
      · exact ih _ (by rw [process_request_step_error st r h]; exact hall r (by simp))
          (fun y hy => hall y (by simp [hy])) ⟨x, hx, hxwf⟩

/-- If no record is a well-formed Next-Protocol record, the loop leaves
`has_next_protocol` unset. -/
theorem process_request_loop_no_np (rs : List KERecord) :
    ∀ st, st.has_next_protocol = false → (∀ x ∈ rs, ¬wfNextProtocol x) →
      (process_request_loop st rs).has_next_protocol = false := by
  induction rs with
  | nil => intro st h _; exact h
  | cons r rs ih =>
    intro st h hall
    unfold process_request_loop
    by_cases he : st.error ≠ ERROR_NONE
    · rw [if_pos he]; exact h
    · rw [if_neg he]
      exact ih _ (process_request_step_np_false st r h (hall r (by simp)))
        (fun x hx => hall x (by simp [hx]))

/-- C6 counterexample: the claim says a request containing a Cookie record
produces BadRequest, but in `requestMsgEx` — Next-Protocol, then an
unknown critical record, then a Cookie, then End-of-Message — the unknown
critical record is scanned first, the loop stops on its error, and the
final error is UnrecognizedCriticalRecord, not BadRequest. -/
theorem process_request_cookie_not_bad_request_cx :
    (parseRecords requestMsgEx).any (fun r => r.rtype = RECORD_COOKIE) = true
    ∧ (process_request requestMsgEx).error = ERROR_UNRECOGNIZED_CRITICAL_RECORD
    ∧ (process_request requestMsgEx).error ≠ ERROR_BAD_REQUEST := by
  refine ⟨?_, ?_, ?_⟩ <;>
    simp [process_request, process_request_records, process_request_loop,
      process_request_step, parseRecords, initReqState, decodeU16s, requestMsgEx,
      RECORD_COOKIE, RECORD_NEXT_PROTOCOL, RECORD_AEAD_ALGORITHM, RECORD_ERROR,
      RECORD_WARNING, RECORD_END_OF_MESSAGE, MAX_RECORD_BODY_LENGTH,
      ERROR_NONE, ERROR_BAD_REQUEST, ERROR_UNRECOGNIZED_CRITICAL_RECORD,
      NEXT_PROTOCOL_NTPV4, NEXT_PROTOCOL_NONE, AEAD_NONE]

/-- C6 (amended): `process_request` scans records in order and stops at the
first offending record: an Error, Warning or Cookie record produces
BadRequest; a record of unknown type with the critical bit set produces
UnrecognizedCriticalRecord, provided a well-formed Next-Protocol record
was already seen — if no Next-Protocol record is ever processed, the final
error is BadRequest regardless (the missing-Next-Protocol check overrides
it); an End-of-Message record never changes the state. -/
theorem process_request_error_cases :
    (∀ pre r post, (∀ x ∈ pre, request_record_error x = ERROR_NONE) →
      (r.rtype = RECORD_ERROR ∨ r.rtype = RECORD_WARNING ∨ r.rtype = RECORD_COOKIE) →
      (process_request_records (pre ++ r :: post)).error = ERROR_BAD_REQUEST)
    ∧ (∀ pre r post, (∀ x ∈ pre, request_record_error x = ERROR_NONE) →
        (∃ x ∈ pre, wfNextProtocol x) → r.critical = true → 6 ≤ r.rtype →
        (process_request_records (pre ++ r :: post)).error
          = ERROR_UNRECOGNIZED_CRITICAL_RECORD)
    ∧ (∀ rs, (∀ x ∈ rs, ¬wfNextProtocol x) →
        (process_request_records rs).error = ERROR_BAD_REQUEST)
    ∧ (∀ st c b, process_request_step st ⟨c, RECORD_END_OF_MESSAGE, b⟩ = st) := by
  refine ⟨?_, ?_, ?_, ?_⟩
  · intro pre r post hpre hr
    have hst := process_request_loop_benign pre initReqState rfl hpre
    have herr : (process_request_step (process_request_loop initReqState pre) r).error
        = ERROR_BAD_REQUEST := by
      rw [process_request_step_error _ r hst]
      rcases hr with h | h | h <;>
        simp [request_record_error, h, RECORD_ERROR, RECORD_WARNING, RECORD_COOKIE,
          RECORD_NEXT_PROTOCOL, RECORD_AEAD_ALGORITHM]
    have hloop : process_request_loop initReqState (pre ++ r :: post)
        = process_request_step (process_request_loop initReqState pre) r := by
      rw [process_request_loop_append, process_request_loop_cons,
        if_neg (by simp [hst]),
        process_request_loop_stuck post _
          (by rw [herr]; simp [ERROR_BAD_REQUEST, ERROR_NONE])]
    unfold process_request_records
    rw [hloop]
    dsimp only
    split_ifs <;> simp [herr]
  · intro pre r post hpre hnp hcrit htype
    have hst := process_request_loop_benign pre initReqState rfl hpre
    have hhasnp := process_request_loop_np pre initReqState rfl hpre hnp
    have herr : (process_request_step (process_request_loop initReqState pre) r).error
        = ERROR_UNRECOGNIZED_CRITICAL_RECORD := by
      rw [process_request_step_error _ r hst]
      unfold request_record_error
      rw [if_neg (by simp [RECORD_NEXT_PROTOCOL]; omega),
        if_neg (by simp [RECORD_AEAD_ALGORITHM]; omega),
        if_neg (by simp [RECORD_ERROR, RECORD_WARNING, RECORD_COOKIE]; omega),
        if_neg (by simp [RECORD_END_OF_MESSAGE]; omega), if_pos hcrit]
    have hkeep := process_request_step_keeps_np (process_request_loop initReqState pre)
      r hhasnp
    have hloop : process_request_loop initReqState (pre ++ r :: post)
        = process_request_step (process_request_loop initReqState pre) r := by
      rw [process_request_loop_append, process_request_loop_cons,
        if_neg (by simp [hst]),
        process_request_loop_stuck post _
          (by rw [herr]; simp [ERROR_UNRECOGNIZED_CRITICAL_RECORD, ERROR_NONE])]
    unfold process_request_records
    rw [hloop]
    dsimp only
    rw [if_pos hkeep]
    exact herr
  · intro rs hall
    unfold process_request_records
    have hnp := process_request_loop_no_np rs initReqState rfl hall
    rw [if_neg (by simp [hnp])]
  · intro st c b
    unfold process_request_step
    simp [RECORD_END_OF_MESSAGE, RECORD_NEXT_PROTOCOL, RECORD_AEAD_ALGORITHM,
      RECORD_ERROR, RECORD_WARNING, RECORD_COOKIE]

/-- Witness for C6 at concrete record vectors: a Cookie after a good
Next-Protocol gives BadRequest; an unknown critical record after a good
Next-Protocol gives UnrecognizedCriticalRecord; a request without
Next-Protocol gives BadRequest; End-of-Message leaves the state alone. -/
theorem process_request_error_cases_witness :
    (process_request_records [npRecordEx, cookieRecordEx, eomRecord]).error
        = ERROR_BAD_REQUEST
    ∧ (process_request_records [npRecordEx, unknownCriticalRecordEx]).error
        = ERROR_UNRECOGNIZED_CRITICAL_RECORD
    ∧ (process_request_records [cookieRecordEx, eomRecord]).error = ERROR_BAD_REQUEST
    ∧ process_request_step initReqState ⟨true, RECORD_END_OF_MESSAGE, []⟩
        = initReqState := by
  refine ⟨?_, ?_, ?_, ?_⟩
  · exact process_request_error_cases.1 [npRecordEx] cookieRecordEx [eomRecord]
      (by decide) (by decide)
  · exact process_request_error_cases.2.1 [npRecordEx] unknownCriticalRecordEx []
      (by decide) ⟨npRecordEx, by simp, by decide⟩ rfl (by decide)
  · exact process_request_error_cases.2.2.1 [cookieRecordEx, eomRecord] (by decide)
  · exact process_request_error_cases.2.2.2 initReqState true []

/-- One `process_response` switch iteration preserves the cookie-store
bounds: at most `maxCookies` cookies, each at most
`NKE_MAX_COOKIE_LENGTH` bytes. -/
theorem process_response_step_inv (f : List Nat → Option Nat) (mx : Nat)
    (st : RespState) (r : KERecord) (h1 : st.cookies.length ≤ mx)
    (h2 : ∀ c ∈ st.cookies, c.length ≤ NKE_MAX_COOKIE_LENGTH) :
    (process_response_step f mx st r).cookies.length ≤ mx
    ∧ ∀ c ∈ (process_response_step f mx st r).cookies,
        c.length ≤ NKE_MAX_COOKIE_LENGTH := by
  unfold process_response_step
  by_cases e1 : r.rtype = RECORD_NEXT_PROTOCOL
  · rw [if_pos e1]
    split <;> exact ⟨h1, h2⟩
  rw [if_neg e1]
  by_cases e2 : r.rtype = RECORD_AEAD_ALGORITHM
  · rw [if_pos e2]
    exact ⟨h1, h2⟩
  rw [if_neg e2]
  by_cases e3 : r.rtype = RECORD_ERROR ∨ r.rtype = RECORD_WARNING
  · rw [if_pos e3]
    exact ⟨h1, h2⟩
  rw [if_neg e3]
  by_cases e4 : r.rtype = RECORD_COOKIE
  · rw [if_pos e4]
    by_cases e5 : r.body.length ≤ NKE_MAX_COOKIE_LENGTH ∧ st.cookies.length < mx
    · rw [if_pos e5]
      refine ⟨?_, ?_⟩
      · simp only [List.length_append, List.length_cons, List.length_nil]
        omega
      · intro c hcmem
        rcases List.mem_append.mp hcmem with hm | hm
        · exact h2 c hm
        · rw [List.mem_singleton.mp hm]
          exact e5.1
    · rw [if_neg e5]
      exact ⟨h1, h2⟩
  rw [if_neg e4]
  by_cases e6 : r.rtype = RECORD_END_OF_MESSAGE
  · rw [if_pos e6]
    exact ⟨h1, h2⟩
  rw [if_neg e6]
  by_cases e7 : r.rtype = RECORD_NTPV4_SERVER_NEGOTIATION
  · rw [if_pos e7]
    by_cases e8 : r.body.length < 2
    · rw [if_pos e8]
      exact ⟨h1, h2⟩
    · rw [if_neg e8]
      by_cases e9 : r.body.length ≥ MAX_RECORD_BODY_LENGTH + 1
      · rw [if_pos e9]
        exact ⟨h1, h2⟩
      · rw [if_neg e9]
        cases f (r.body.take NKE_MAX_COOKIE_LENGTH) <;> exact ⟨h1, h2⟩
  rw [if_neg e7]
  by_cases e10 : r.rtype = RECORD_NTPV4_PORT_NEGOTIATION
  · rw [if_pos e10]
    split <;> exact ⟨h1, h2⟩
  rw [if_neg e10]
  by_cases e11 : r.critical = true
  · rw [if_pos e11]
    exact ⟨h1, h2⟩
  · rw [if_neg e11]
    exact ⟨h1, h2⟩

/-- The `process_response` loop preserves the cookie-store bounds. -/
theorem process_response_loop_inv (f : List Nat → Option Nat) (mx : Nat)
    (rs : List KERecord) :
    ∀ st, st.cookies.length ≤ mx →
      (∀ c ∈ st.cookies, c.length ≤ NKE_MAX_COOKIE_LENGTH) →
      (process_response_loop f mx st rs).cookies.length ≤ mx
      ∧ ∀ c ∈ (process_response_loop f mx st rs).cookies,
          c.length ≤ NKE_MAX_COOKIE_LENGTH := by
  induction rs with
  | nil => intro st h1 h2; exact ⟨h1, h2⟩
  | cons r rs ih =>
    intro st h1 h2
    unfold process_response_loop
    by_cases he : st.error ≠ ERROR_NONE
    · rw [if_pos he]; exact ⟨h1, h2⟩
    · rw [if_neg he]
      obtain ⟨g1, g2⟩ := process_response_step_inv f mx st r h1 h2
      exact ih _ g1 g2

/-- C10: `process_response` never stores more than `max_cookies` cookies
and every stored cookie is at most `NKE_MAX_COOKIE_LENGTH` bytes; a Cookie
record whose body is too long, or one arriving once the store is full, is
skipped silently — the switch iteration returns the state unchanged, so it
neither sets an error nor otherwise invalidates the response. -/
theorem process_response_cookie_safety (f : List Nat → Option Nat) (mx : Nat)
    (msg : List Nat) :
    ((process_response f mx msg).2.cookies.length ≤ mx
      ∧ ∀ c ∈ (process_response f mx msg).2.cookies,
          c.length ≤ NKE_MAX_COOKIE_LENGTH)
    ∧ ∀ st crit b, ¬(b.length ≤ NKE_MAX_COOKIE_LENGTH ∧ st.cookies.length < mx) →
        process_response_step f mx st ⟨crit, RECORD_COOKIE, b⟩ = st := by
  constructor
  · exact process_response_loop_inv f mx (parseRecords msg) initRespState
      (by simp [initRespState]) (by simp [initRespState])
  · intro st crit b hskip
    unfold process_response_step
    rw [if_neg (by simp [RECORD_COOKIE, RECORD_NEXT_PROTOCOL]),
      if_neg (by simp [RECORD_COOKIE, RECORD_AEAD_ALGORITHM]),
      if_neg (by simp [RECORD_COOKIE, RECORD_ERROR, RECORD_WARNING]),
      if_pos (by simp [RECORD_COOKIE]), if_neg hskip]

set_option maxRecDepth 8000 in
/-- Witness for C10: with room for one cookie, `responseMsgEx` stores at
most one, and a 300-byte cookie body is skipped without touching the
state. -/
theorem process_response_cookie_safety_witness :
    ((process_response (fun _ => none) 1 responseMsgEx).2.cookies.length ≤ 1
      ∧ ∀ c ∈ (process_response (fun _ => none) 1 responseMsgEx).2.cookies,
          c.length ≤ NKE_MAX_COOKIE_LENGTH)
    ∧ process_response_step (fun _ => none) 1 initRespState
        ⟨false, RECORD_COOKIE, List.replicate 300 0⟩ = initRespState :=
  ⟨(process_response_cookie_safety (fun _ => none) 1 responseMsgEx).1,
    (process_response_cookie_safety (fun _ => none) 1 responseMsgEx).2 initRespState
      false (List.replicate 300 0) (by simp [NKE_MAX_COOKIE_LENGTH])⟩

/-- C3 counterexample: the claim says an empty buffer yields Error, but
`check_message_format` on an empty buffer with `eof = false` yields
`MSG_INCOMPLETE` (the `message->length == 0 || parsed < length` test routes
the empty buffer through the eof check, not straight to Error). -/
theorem check_message_format_empty_incomplete_cx :
    check_message_format ⟨[], false⟩ = .MSG_INCOMPLETE
    ∧ check_message_format ⟨[], false⟩ ≠ .MSG_ERROR := by
  constructor <;> simp [check_message_format, recordLoop]

/-- C3 (amended): `check_message_format` returns Incomplete when record
iteration stops before consuming all `length` bytes — or the buffer is
empty — and eof is false, and Error in those situations when eof is set;
when all bytes are consumed and the buffer is non-empty, it returns Ok
exactly when the last parsed record is a critical End-of-Message with
empty body, and Error otherwise.  In particular an empty buffer yields
Error only when eof is set (Incomplete otherwise), while a buffer
containing only a critical End-of-Message yields Ok. -/
theorem check_message_format_characterization (m : NKE_Message) :
    ((m.data.length = 0 ∨ (recordLoop m.data none).1 < m.data.length) →
      check_message_format m = (if m.eof then .MSG_ERROR else .MSG_INCOMPLETE))
    ∧ (¬(m.data.length = 0 ∨ (recordLoop m.data none).1 < m.data.length) →
        ∀ hd, (recordLoop m.data none).2 = some hd →
          check_message_format m =
            (if hd.critical ∧ hd.rtype = 0 ∧ hd.blen = 0 then .MSG_OK else .MSG_ERROR))
    ∧ check_message_format ⟨[], true⟩ = .MSG_ERROR
    ∧ check_message_format ⟨[], false⟩ = .MSG_INCOMPLETE
    ∧ check_message_format ⟨[128, 0, 0, 0], m.eof⟩ = .MSG_OK := by
  refine ⟨?_, ?_, ?_, ?_, ?_⟩
  · intro h
    unfold check_message_format
    rw [if_pos h]
  · intro h hd hhd
    unfold check_message_format
    rw [if_neg h, hhd]
  · simp [check_message_format, recordLoop]
  · simp [check_message_format, recordLoop]
  · simp [check_message_format, recordLoop]

/-- Witness for C3 at concrete buffers: a truncated record with eof clear
is Incomplete, and a complete lone End-of-Message is Ok. -/
theorem check_message_format_characterization_witness :
    check_message_format ⟨[0, 1, 0, 5, 0], false⟩ = .MSG_INCOMPLETE
    ∧ check_message_format ⟨[128, 0, 0, 0], true⟩ = .MSG_OK := by
  constructor
  · have h := (check_message_format_characterization ⟨[0, 1, 0, 5, 0], false⟩).1
      (by simp [recordLoop])
    simpa using h
  · have h := (check_message_format_characterization ⟨[128, 0, 0, 0], true⟩).2.1
      (by simp [recordLoop]) ⟨true, 0, 0⟩ (by simp [recordLoop])
    simpa using h

/-- Witness for C5 at a concrete ring and a concrete stale cookie. -/
theorem server_key_rotation_slot_id_witness :
    staleCookieEx.key_id
        ≠ (ringEx.keys ⟨staleCookieEx.key_id % 4, Nat.mod_lt _ (by norm_num)⟩).id
    ∧ NKE_DecodeCookie ringEx staleCookieEx = none :=
  ⟨by decide, (server_key_rotation_slot_id ringEx 5 77 staleCookieEx).2.2 (by decide)⟩

set_option maxRecDepth 8000 in
/-- C2 (as shipped): `NTS_CheckRequestAuth` accepts a client-mode packet
containing one cookie and an Authenticator-and-EEF whose 16-byte
ciphertext is arbitrary garbage — it never opens the cookie and never
verifies the AEAD tag — and it even accepts a packet with no cookie at
all, so success is not equivalent to tag verification under the cookie's
C2S key. -/
theorem check_request_auth_no_aead_check :
    NTS_CheckRequestAuth
        [⟨NTP_EF_NTS_COOKIE, List.replicate 100 0⟩,
          ⟨NTP_EF_NTS_AUTH_AND_EEF,
            [0, 16, 0, 16] ++ List.replicate 16 0 ++ List.replicate 16 7⟩]
        ⟨MODE_CLIENT, 2⟩ = true
    ∧ NTS_CheckRequestAuth
        [⟨NTP_EF_NTS_AUTH_AND_EEF,
            [0, 16, 0, 16] ++ List.replicate 16 0 ++ List.replicate 16 7⟩]
        ⟨MODE_CLIENT, 1⟩ = true := by
  constructor <;> decide

/-- C7: with at least one cookie, `NTS_GenerateRequestAuth` appends, in
order, one Unique-Identifier carrying the stored 32-byte id, one Cookie
carrying the next cookie in the ring, exactly `MAX_COOKIES - num_cookies`
Cookie-Placeholder fields each carrying (hence as long as) that same
cookie, and one Authenticator-and-EEF field whose nonce is the stored
nonce and whose ciphertext is 16 bytes (empty plaintext); it then
decrements `num_cookies` and advances `cookie_index` mod `MAX_COOKIES`.
With no cookies it fails without producing a packet. -/
theorem generate_request_auth_fields (inst : NTS_ClientInstance) (pkt : NtpPacket) :
    (inst.num_cookies = 0 → NTS_GenerateRequestAuth inst pkt = none)
    ∧ (0 < inst.num_cookies →
        ∃ ct : SivCiphertext,
          NTS_GenerateRequestAuth inst pkt = some
            ({ pkt with fields := (pkt.fields
                ++ [.uniqueId inst.uniq_id,
                    .ntsCookie (inst.cookies.getD inst.cookie_index [])]
                ++ List.replicate (MAX_COOKIES - inst.num_cookies)
                    (.cookiePlaceholder (inst.cookies.getD inst.cookie_index []))
                ++ [.authAndEEF 16 16 inst.nonce ct]) },
              { inst with
                  num_cookies := inst.num_cookies - 1
                  cookie_index := (inst.cookie_index + 1) % MAX_COOKIES })
          ∧ sivCiphertextLength ct = 16 ∧ ct.pt = [] ∧ ct.nonce = inst.nonce) := by
  constructor
  · intro h
    unfold NTS_GenerateRequestAuth
    rw [if_pos h]
  · intro h
    unfold NTS_GenerateRequestAuth
    rw [if_neg (by omega)]
    exact ⟨_, rfl, rfl, rfl, rfl⟩

/-- Witness for C7: the empty ring fails; the two-cookie instance
produces a packet. -/
theorem generate_request_auth_fields_witness :
    NTS_GenerateRequestAuth clientInstEmptyEx ⟨MODE_CLIENT, []⟩ = none
    ∧ NTS_GenerateRequestAuth clientInstEx ⟨MODE_CLIENT, []⟩ ≠ none := by
  constructor
  · exact (generate_request_auth_fields clientInstEmptyEx ⟨MODE_CLIENT, []⟩).1 rfl
  · obtain ⟨ct, heq, _, _, _⟩ :=
      (generate_request_auth_fields clientInstEx ⟨MODE_CLIENT, []⟩).2 (by decide)
    rw [heq]
    simp

/-- `NTS_CheckResponseAuth` returns 0 on every input: both branches of its
body are 0. -/
theorem NTS_CheckResponseAuth_eq_zero (inst : NTS_ClientInstance) (pkt : NtpPacket) :
    NTS_CheckResponseAuth inst pkt = 0 := by
  unfold NTS_CheckResponseAuth
  split_ifs <;> rfl

set_option maxRecDepth 8000 in
/-- C8 (as shipped): for the client whose two-cookie instance produced a
request, the server's `NTS_GenerateResponseAuth` produces a response, yet
`NTS_CheckResponseAuth` rejects it (returns 0) — the function returns 0
unconditionally, so the round trip can never succeed. -/
theorem check_response_auth_rejects_generated :
    ∃ req inst' out,
      NTS_GenerateRequestAuth clientInstEx ⟨MODE_CLIENT, []⟩ = some (req, inst')
      ∧ NTS_GenerateResponseAuth req ⟨MODE_SERVER, []⟩ = some out
      ∧ NTS_CheckResponseAuth inst' out = 0 := by
  refine ⟨_, _, _, rfl, rfl, ?_⟩
  exact NTS_CheckResponseAuth_eq_zero _ _

/-- Cookie counting distributes over field-list append. -/
theorem countCookieFields_append (a b : List NtpEF) :
    countCookieFields (a ++ b) = countCookieFields a + countCookieFields b := by
  simp [countCookieFields, List.filter_append]

/-- Each Cookie-Placeholder in the request contributes exactly one fresh
cookie to the response. -/
theorem countCookieFields_flatten_replicate (n : Nat) (p : List Nat) :
    countCookieFields
        ((List.replicate n (NtpEF.cookiePlaceholder p)).map response_fields_for).flatten
      = n := by
  induction n with
  | zero => rfl
  | succ n ih =>
    rw [List.replicate_succ, List.map_cons, List.flatten_cons, countCookieFields_append, ih]
    have h1 : countCookieFields (response_fields_for (NtpEF.cookiePlaceholder p)) = 1 := rfl
    omega

/-- C9: in `NTS_GenerateResponseAuth` the Unique-Identifier switch case
falls through into the cookie case, so every Unique-Identifier field both
echoes the identifier and appends one fresh cookie; hence a request with
one Unique-Identifier, one Cookie and `n` Cookie-Placeholders yields a
response whose first field is the echoed identifier and which carries
exactly `n + 2` cookie fields. -/
theorem generate_response_auth_cookie_count (u c p : List Nat) (n : Nat)
    (resp : NtpPacket) (hm : resp.mode = MODE_SERVER) (hf : resp.fields = []) :
    (∀ b, response_fields_for (.uniqueId b)
        = [.uniqueId b, .ntsCookie add_response_cookie_body])
    ∧ ∃ out, NTS_GenerateResponseAuth
          ⟨MODE_CLIENT, [.uniqueId u, .ntsCookie c]
            ++ List.replicate n (.cookiePlaceholder p)⟩ resp = some out
        ∧ countCookieFields out.fields = n + 2
        ∧ out.fields.take 1 = [.uniqueId u] := by
  obtain ⟨rm, rf⟩ := resp
  simp only at hm hf
  subst hm
  subst hf
  refine ⟨fun b => rfl, ?_⟩
  refine ⟨⟨MODE_SERVER, [] ++ (([NtpEF.uniqueId u, NtpEF.ntsCookie c]
      ++ List.replicate n (NtpEF.cookiePlaceholder p)).map response_fields_for).flatten⟩,
    ?_, ?_, ?_⟩
  · unfold NTS_GenerateResponseAuth
    rw [if_neg (by simp [ MODE_CLIENT, MODE_SERVER])]
  · show countCookieFields ([] ++ (([NtpEF.uniqueId u, NtpEF.ntsCookie c]
        ++ List.replicate n (NtpEF.cookiePlaceholder p)).map response_fields_for).flatten)
      = n + 2
    rw [List.nil_append, List.map_append, List.flatten_append, countCookieFields_append,
      countCookieFields_flatten_replicate]
    have h1 : countCookieFields
        ((List.map response_fields_for [NtpEF.uniqueId u, NtpEF.ntsCookie c]).flatten)
      = 2 := rfl
    omega
  · rfl

/-- Witness for C9 with one placeholder and an empty server-mode
response. -/
theorem generate_response_auth_cookie_count_witness :
    ∃ out, NTS_GenerateResponseAuth
        ⟨MODE_CLIENT, [.uniqueId [4], .ntsCookie [5],
          NtpEF.cookiePlaceholder [6]]⟩ ⟨MODE_SERVER, []⟩ = some out
      ∧ countCookieFields out.fields = 3 := by
  obtain ⟨out, h1, h2, h3⟩ :=
    (generate_response_auth_cookie_count [4] [5] [6] 1 ⟨MODE_SERVER, []⟩ rfl rfl).2
  exact ⟨out, by simpa using h1, h2⟩

end ChronyNts
